import Mathlib

/-!
Verification of the game-session and wager-settlement core of the
TelegramBot-Beano repository (src/Main.py).

The embedding is shallow: the JSON-backed game-session record becomes a
Lean structure, the points store becomes an association list keyed by
string ids (mirroring the Python dicts keyed by `str(id)`), and each
handler becomes a pure function from the pre-state to a post-state plus a
list of transport effects (messages / media sends).  External
collaborators (display-name resolution, the Telegram transport) are
parameters.  Message texts are transcribed from the source, except that
apostrophes are written out (for example "It is not your turn") and large
board renderings are abbreviated, since no claim depends on those texts.
-/

namespace Beano

/-- Does the second list occur as a leading segment of the first? -/
def listStartsWith : List Char → List Char → Bool
  | _, [] => true
  | [], _ :: _ => false
  | a :: s, b :: p => a = b && listStartsWith s p

/-- Does the second list occur as a contiguous segment of the first? -/
def listHasSub : List Char → List Char → Bool
  | [], p => listStartsWith [] p
  | a :: t, p => listStartsWith (a :: t) p || listHasSub t p

/-- Models the Python expression `pat in s` (substring containment). -/
def strContains (s pat : String) : Bool :=
  listHasSub s.toList pat.toList

/-- Models Python `str.capitalize()` on the ASCII names used here: the
first character is upcased (the source never feeds it mixed-case tails). -/
def pyCapitalize (s : String) : String :=
  match s.toList with
  | [] => s
  | c :: rest => String.mk (c.toUpper :: rest)

/-- Dict-style update on an association list: replace the binding in place
if the key is present (Python dicts keep insertion order), else append. -/
def alSet {β : Type} : List (String × β) → String → β → List (String × β)
  | [], k, v => [(k, v)]
  | (k0, v0) :: rest, k, v =>
      if k0 = k then (k, v) :: rest else (k0, v0) :: alSet rest k v

/-- Dict-style read with default, modelling `d.get(k, default)` (and plain
`d[k]` at call sites where the key is always present). -/
def dictGet {β : Type} (l : List (String × β)) (k : String) (d : β) : β :=
  (List.lookup k l).getD d

/-- The points store: group id → (user id → balance), both keys stringified
exactly as `points.json` stores them. -/
abbrev PointsData := List (String × List (String × Int))

/-- Models `get_user_points(group_id, user_id)` (src/Main.py:300). -/
def get_user_points (data : PointsData) (group_id user_id : Int) : Int :=
  dictGet (dictGet data (toString group_id) []) (toString user_id) 0

/-- Models `set_user_points(group_id, user_id, points)` (src/Main.py:306). -/
def set_user_points (data : PointsData) (group_id user_id : Int) (points : Int) :
    PointsData :=
  alSet data (toString group_id)
    (alSet (dictGet data (toString group_id) []) (toString user_id) points)

/-- Models `add_user_points(group_id, user_id, delta, ...)` (src/Main.py:362);
the punishment / strike hooks are external side effects of the points
collaborator and carry no session state. -/
def add_user_points (data : PointsData) (group_id user_id delta : Int) :
    PointsData :=
  set_user_points data group_id user_id (get_user_points data group_id user_id + delta)

/-- A stake: the tagged dict `\x7b"type": ..., "value": ...\x7d` written by the
stake-submission handlers.  `points` carries the integer amount; `media`
carries the Python `type` string (photo / video / voice) and the file id. -/
inductive Stake where
  | points (value : Int)
  | media (mtype : String) (fileId : String)
deriving DecidableEq, Repr

/-- A recorded first roll of a dice round (`last_roll`). -/
structure Roll where
  user_id : Int
  value : Int
deriving DecidableEq, Repr

/-- The game-session record stored in games.json, with the union of the
fields the handlers under verification read or write.  Unused fields of a
given game kind keep their defaults, like absent keys of the JSON dict. -/
structure Game where
  group_id : Int := 0
  challenger_id : Int := 0
  opponent_id : Int := 0
  game_type : String := ""
  challenger_stake : Option Stake := none
  opponent_stake : Option Stake := none
  status : String := ""
  rounds_to_play : Int := 0
  challenger_score : Int := 0
  opponent_score : Int := 0
  current_round : Int := 0
  last_roll : Option Roll := none
  board : List (List Int) := []
  turn : Int := 0
  boards : List (String × List (List Int)) := []
  ships : List (String × List (String × List (Nat × Nat))) := []
  placement_complete : List (String × Bool) := []
deriving DecidableEq, Repr

/-- Transport effects a handler emits (sends, edits, callback alerts). -/
inductive Effect where
  | sendMessage (chat : Int) (text : String)
  | sendPhoto (chat : Int) (fileId : String) (caption : String)
  | sendVideo (chat : Int) (fileId : String) (caption : String)
  | sendVoice (chat : Int) (fileId : String) (caption : String)
  | reply (text : String)
  | editMessage (text : String)
  | alert (text : String)
deriving DecidableEq, Repr

/-- Result of one handler invocation: the persisted points store, the
persisted session record, and the emitted transport effects. -/
structure StepResult where
  points : PointsData
  game : Game
  effects : List Effect
deriving DecidableEq, Repr

/-- The loser-stake selection at the top of `handle_game_over`
(src/Main.py:569-572): `if str(game['challenger_id']) == str(loser_id)`
pick the challenger's stake, else the opponent's. -/
def select_loser_stake (g : Game) (loser_id : Int) : Option Stake :=
  if toString g.challenger_id = toString loser_id then g.challenger_stake
  else g.opponent_stake

/-- Models `handle_game_over(context, game_id, winner_id, loser_id)`
(src/Main.py:564-607).  `names` is the external display-name resolver
(`get_display_name` composed with `get_chat_member`).  An unresolvable
loser stake is logged and the function returns without saving anything. -/
def handle_game_over (names : Int → String) (pts : PointsData) (g : Game)
    (winner_id loser_id : Int) : StepResult :=
  match select_loser_stake g loser_id with
  | none => ⟨pts, g, []⟩
  | some stake =>
    let loser_name := names loser_id
    let winner_name := names winner_id
    match stake with
    | Stake.points v =>
      let pts1 := add_user_points pts g.group_id winner_id v
      let pts2 := add_user_points pts1 g.group_id loser_id (-v)
      let message :=
        if strContains winner_name "fag" then
          "The " ++ winner_name ++ " has won the game! " ++ loser_name ++
            " lost " ++ toString v ++ " points."
        else
          pyCapitalize winner_name ++ " has won the game! " ++ loser_name ++
            " lost " ++ toString v ++ " points."
      ⟨pts2, { g with status := "complete" }, [Effect.sendMessage g.group_id message]⟩
    | Stake.media mtype fileId =>
      let caption :=
        if strContains winner_name "fag" then
          "The " ++ winner_name ++ " won the game! This is the loser stake from " ++
            loser_name ++ "."
        else
          pyCapitalize winner_name ++ " won the game! This is the loser stake from " ++
            loser_name ++ "."
      let effs :=
        if mtype = "photo" then [Effect.sendPhoto g.group_id fileId caption]
        else if mtype = "video" then [Effect.sendVideo g.group_id fileId caption]
        else if mtype = "voice" then [Effect.sendVoice g.group_id fileId caption]
        else []
      ⟨pts, { g with status := "complete" }, effs⟩

/-- A display-name resolver used by concrete test inputs. -/
def namesX : Int → String := fun _ => "alice"

/-- A concrete already-settled session: status complete, both stakes 5
points, challenger 1, opponent 2, group 10. -/
def gameC1 : Game :=
  { group_id := 10, challenger_id := 1, opponent_id := 2,
    game_type := "game_dice",
    challenger_stake := some (Stake.points 5),
    opponent_stake := some (Stake.points 5),
    status := "complete" }

/-- A points store where users 1 and 2 hold 25 and 15 points in group 10
(the balances left by the first settlement of `gameC1`). -/
def ptsC1 : PointsData := [("10", [("1", 25), ("2", 15)])]

/-- Claim C1 (code_bug evidence): `handle_game_over` performs no status
check, so invoking it on a session whose status is already "complete"
transfers the loser stake again: winner 1 goes from 25 to 30 points and
loser 2 from 15 to 10, contradicting the required settlement idempotence. -/
theorem handle_game_over_not_idempotent :
    gameC1.status = "complete" ∧
    get_user_points (handle_game_over namesX ptsC1 gameC1 1 2).points 10 1 = 30 ∧
    get_user_points (handle_game_over namesX ptsC1 gameC1 1 2).points 10 2 = 10 ∧
    (handle_game_over namesX ptsC1 gameC1 1 2).points ≠ ptsC1 := by
  refine ⟨rfl, ?_, ?_, ?_⟩ <;> decide

/-- Claim C3: when the loser stake cannot be resolved (the stake field
selected for the loser is absent), `handle_game_over` logs and aborts:
the points store, the whole session record (in particular its status) are
unchanged and no media or message is sent. -/
theorem handle_game_over_aborts_without_stake
    (names : Int → String) (pts : PointsData) (g : Game) (winner_id loser_id : Int)
    (h : select_loser_stake g loser_id = none) :
    handle_game_over names pts g winner_id loser_id = ⟨pts, g, []⟩ := by
  simp [handle_game_over, h]

/-- A session with no stakes recorded, used to exercise the abort path. -/
def gameC3 : Game :=
  { group_id := 10, challenger_id := 1, opponent_id := 2,
    game_type := "game_dice", status := "active" }

/-- Witness for C3: settling `gameC3` (no stakes recorded) changes nothing. -/
theorem handle_game_over_aborts_without_stake_witness :
    select_loser_stake gameC3 2 = none ∧
    handle_game_over namesX ptsC1 gameC3 1 2 = ⟨ptsC1, gameC3, []⟩ :=
  ⟨by decide, handle_game_over_aborts_without_stake namesX ptsC1 gameC3 1 2 (by decide)⟩

/-- Claim C10: the loser-stake selection compares only the string forms of
`loser_id` and `challenger_id`; every `loser_id` whose string form differs
from the challenger's id receives the opponent's stake, with no check that
`loser_id` is a participant of the session at all. -/
theorem select_loser_stake_no_membership_check
    (g : Game) (loser_id : Int)
    (h : toString loser_id ≠ toString g.challenger_id) :
    select_loser_stake g loser_id = g.opponent_stake := by
  simp [select_loser_stake]
  intro h2
  exact absurd h2.symm h

/-- A session used to exercise the stake selection with a non-participant. -/
def gameC10 : Game :=
  { group_id := 10, challenger_id := 1, opponent_id := 2,
    challenger_stake := some (Stake.points 7),
    opponent_stake := some (Stake.media "photo" "file9"),
    status := "active" }

/-- Witness for C10: id 999 is neither the challenger (1) nor the opponent
(2) of `gameC10`, yet the opponent's stake is selected for it. -/
theorem select_loser_stake_no_membership_check_witness :
    (999 : Int) ≠ gameC10.challenger_id ∧ (999 : Int) ≠ gameC10.opponent_id ∧
    select_loser_stake gameC10 999 = some (Stake.media "photo" "file9") :=
  ⟨by decide, by decide,
    select_loser_stake_no_membership_check gameC10 999 (by decide)⟩

/-- The conversation-handler state returned by a setup-flow handler:
either a re-prompt looping in the same state, the challenger's
confirmation step (`show_confirmation`), or `ConversationHandler.END`. -/
inductive NextState where
  | stakeSubmissionPoints
  | stakeSubmissionMedia
  | confirmation
  | conversationEnd
deriving DecidableEq, Repr

/-- An empty 10 x 10 battleship board (`[[0] * 10 for _ in range(10)]`). -/
def emptyBsBoard : List (List Int) :=
  List.replicate 10 (List.replicate 10 0)

/-- The game-kind-specific activation performed when the opponent's stake
lands (src/Main.py:2461-2515): dice round counters are initialised, the
status becomes active, and battleship allocates boards, fleets, placement
flags and the first turn. -/
def activate_opponent_game (g : Game) : Game :=
  let g2 :=
    if g.game_type = "game_dice" then
      { g with current_round := 1, challenger_score := 0, opponent_score := 0,
               last_roll := none }
    else g
  let g3 := { g2 with status := "active" }
  if g3.game_type = "game_battleship" then
    { g3 with
        boards := [(toString g3.challenger_id, emptyBsBoard),
                   (toString g3.opponent_id, emptyBsBoard)],
        ships := [(toString g3.challenger_id, []), (toString g3.opponent_id, [])],
        placement_complete := [(toString g3.challenger_id, false),
                               (toString g3.opponent_id, false)],
        turn := g3.challenger_id }
  else g3

/-- Models `stake_submission_points` (src/Main.py:2440-2522).  `parsed` is
the outcome of `int(update.message.text)`: `none` is the ValueError path.
The only acceptance test in the source is `user_points < points` → reject;
an accepted stake is written to the submitting role's stake field, after
which the opponent path activates the session and ends the conversation
while the challenger path proceeds to `show_confirmation`. -/
def stake_submission_points (pts : PointsData) (g : Game) (user_id : Int)
    (player_role : String) (parsed : Option Int) :
    Game × NextState × List Effect :=
  match parsed with
  | none =>
    (g, NextState.stakeSubmissionPoints,
      [Effect.reply "Please enter a valid number of points."])
  | some points =>
    let user_points := get_user_points pts g.group_id user_id
    if user_points < points then
      (g, NextState.stakeSubmissionPoints,
        [Effect.reply ("You do not have enough points. You have " ++
          toString user_points ++ ", but you tried to stake " ++
          toString points ++ ". Please enter a valid amount.")])
    else
      let g1 :=
        if player_role = "opponent" then
          { g with opponent_stake := some (Stake.points points) }
        else
          { g with challenger_stake := some (Stake.points points) }
      if player_role = "opponent" then
        (activate_opponent_game g1, NextState.conversationEnd,
          [Effect.sendMessage g1.group_id "The game is on!"])
      else
        (g1, NextState.confirmation,
          [Effect.reply "show_confirmation"])

/-- The stake field belonging to a setup role. -/
def stake_of_role (g : Game) (player_role : String) : Option Stake :=
  if player_role = "opponent" then g.opponent_stake else g.challenger_stake

/-- A fresh dice challenge mid-setup, the challenger 7 choosing a points
stake in group 1; every balance in the store is zero. -/
def gameC2 : Game :=
  { group_id := 1, challenger_id := 7, opponent_id := 8,
    game_type := "game_dice", status := "setup" }

/-- Claim C2 (counterexample): with a balance of 0, submitting the amount
-5 is accepted — the stake -5 is recorded and the flow leaves the
points-submission state — although the claim requires every amount below 0
to be rejected with an unchanged session and a re-prompt. -/
theorem stake_submission_points_accepts_negative :
    get_user_points [] gameC2.group_id 7 = 0 ∧
    (stake_submission_points [] gameC2 7 "challenger" (some (-5))).1.challenger_stake
      = some (Stake.points (-5)) ∧
    (stake_submission_points [] gameC2 7 "challenger" (some (-5))).2.1
      ≠ NextState.stakeSubmissionPoints := by
  refine ⟨?_, ?_, ?_⟩ <;> decide

/-- Claim C2 (amended): a points-stake submission is accepted exactly when
the text parses as an integer `amount` with `amount ≤ current_balance`
(no lower bound is enforced, so zero and negative amounts within the
balance are accepted); a submission with `amount > current_balance`, or
one that does not parse, leaves the session record unchanged and
re-prompts in the same state. -/
theorem stake_submission_points_balance_bound
    (pts : PointsData) (g : Game) (user_id : Int) (player_role : String)
    (amount : Int) :
    (get_user_points pts g.group_id user_id < amount →
      (stake_submission_points pts g user_id player_role (some amount)).1 = g ∧
      (stake_submission_points pts g user_id player_role (some amount)).2.1 =
        NextState.stakeSubmissionPoints) ∧
    (amount ≤ get_user_points pts g.group_id user_id →
      stake_of_role (stake_submission_points pts g user_id player_role (some amount)).1
          player_role = some (Stake.points amount) ∧
      (stake_submission_points pts g user_id player_role (some amount)).2.1 ≠
        NextState.stakeSubmissionPoints) ∧
    ((stake_submission_points pts g user_id player_role none).1 = g ∧
      (stake_submission_points pts g user_id player_role none).2.1 =
        NextState.stakeSubmissionPoints) := by
  refine ⟨fun h => ?_, fun h => ?_, ?_⟩
  · simp [stake_submission_points, h]
  · have h2 : ¬ get_user_points pts g.group_id user_id < amount := not_lt.mpr h
    by_cases hrole : player_role = "opponent" <;>
      by_cases hd : g.game_type = "game_dice" <;>
      by_cases hb : g.game_type = "game_battleship" <;>
      simp [stake_submission_points, h2, hrole, stake_of_role,
        activate_opponent_game, hd, hb]
  · simp [stake_submission_points]

/-- Witness for the amended C2: with a balance of 0, staking 3 is rejected
with the session unchanged, while staking 0 is accepted and recorded. -/
theorem stake_submission_points_balance_bound_witness :
    ((stake_submission_points [] gameC2 7 "challenger" (some 3)).1 = gameC2 ∧
      (stake_submission_points [] gameC2 7 "challenger" (some 3)).2.1 =
        NextState.stakeSubmissionPoints) ∧
    stake_of_role (stake_submission_points [] gameC2 7 "challenger" (some 0)).1
        "challenger" = some (Stake.points 0) :=
  ⟨(stake_submission_points_balance_bound [] gameC2 7 "challenger" 3).1 (by decide),
   ((stake_submission_points_balance_bound [] gameC2 7 "challenger" 0).2.1
      (by decide)).1⟩

/-- Models `challenge_response_handler` (src/Main.py:2869-2937).  The game
may already have been deleted (`none`); the result's middle component is
the stored session after the handler (`none` when the handler deleted it).
On refusal the source announces the challenger's loss: for a media stake
it broadcasts the media item with a loss caption; for a points stake it
only sends the announcement text — no `add_user_points` call occurs. -/
def challenge_response_step (names : Int → String) (pts : PointsData)
    (og : Option Game) (user_id : Int) (response_type : String) :
    PointsData × Option Game × List Effect :=
  match og with
  | none => (pts, none, [Effect.editMessage "This game challenge is no longer valid."])
  | some g =>
    if user_id ≠ g.opponent_id then
      (pts, some g, [Effect.alert "This challenge is not for you."])
    else if response_type = "accept_challenge" then
      (pts, some { g with status := "pending_opponent_stake" },
        [Effect.editMessage
          "Challenge accepted! Please check your private messages to set up your stake.",
         Effect.sendMessage user_id
          "You have accepted the challenge! Click the button below to set up your stake."])
    else if response_type = "refuse_challenge" then
      match g.challenger_stake with
      | none => (pts, some g, [])
      | some stake =>
        let challenger_name := names g.challenger_id
        let dmEff := Effect.sendMessage g.challenger_id
          ("Your challenge was refused by " ++ names user_id ++ ".")
        match stake with
        | Stake.points v =>
          let message :=
            if strContains challenger_name "fag" then
              "The " ++ challenger_name ++ " is a loser for being refused! They lost " ++
                toString v ++ " points."
            else
              pyCapitalize challenger_name ++
                " is a loser for being refused! They lost " ++ toString v ++ " points."
          (pts, none,
            [dmEff, Effect.sendMessage g.group_id message,
             Effect.editMessage "Challenge refused."])
        | Stake.media mtype fileId =>
          let caption :=
            if strContains challenger_name "fag" then
              "The " ++ challenger_name ++ " is a loser for being refused! This was their stake."
            else
              pyCapitalize challenger_name ++
                " is a loser for being refused! This was their stake."
          let mediaEffs :=
            if mtype = "photo" then [Effect.sendPhoto g.group_id fileId caption]
            else if mtype = "video" then [Effect.sendVideo g.group_id fileId caption]
            else if mtype = "voice" then [Effect.sendVoice g.group_id fileId caption]
            else []
          (pts, none, dmEff :: mediaEffs ++ [Effect.editMessage "Challenge refused."])
    else (pts, some g, [])

/-- A room-broadcast challenge awaiting the opponent's response whose
challenger staked 50 points. -/
def gameC4 : Game :=
  { group_id := 10, challenger_id := 1, opponent_id := 2,
    game_type := "game_dice",
    challenger_stake := some (Stake.points 50),
    status := "awaiting_opponent_response" }

/-- The points store before the refusal of `gameC4`: challenger 1 holds 60
points in group 10. -/
def ptsC4 : PointsData := [("10", [("1", 60)])]

/-- Claim C4 (code_bug evidence): when opponent 2 refuses the challenge of
`gameC4`, the session is deleted and the room is told the challenger
"lost 50 points", yet the points store is untouched — the challenger's
balance stays 60 and no transfer happens, contradicting both the claim and
the handler's own announcement. -/
theorem challenge_refusal_points_not_transferred :
    (challenge_response_step namesX ptsC4 (some gameC4) 2 "refuse_challenge").1
      = ptsC4 ∧
    (challenge_response_step namesX ptsC4 (some gameC4) 2 "refuse_challenge").2.1
      = none ∧
    (challenge_response_step namesX ptsC4 (some gameC4) 2 "refuse_challenge").2.2
      = [Effect.sendMessage 1 "Your challenge was refused by alice.",
         Effect.sendMessage 10
           "Alice is a loser for being refused! They lost 50 points.",
         Effect.editMessage "Challenge refused."] ∧
    get_user_points
      (challenge_response_step namesX ptsC4 (some gameC4) 2 "refuse_challenge").1
      10 1 = 60 := by
  refine ⟨?_, ?_, ?_, ?_⟩ <;> decide

/-- Reads `board[r][c]` of a list-of-rows board.  The defaults are never
reached on the fixed-size boards the handlers operate on. -/
def cell (board : List (List Int)) (r c : Nat) : Int :=
  (board.getD r []).getD c 0

/-- Writes `board[r][c] = v`. -/
def setCell (board : List (List Int)) (r c : Nat) (v : Int) : List (List Int) :=
  board.set r ((board.getD r []).set c v)

/-- Models `check_connect_four_win(board, player_num)` (src/Main.py:534-556):
the four scans (horizontal, vertical, down-right, up-right diagonal) in
their fixed order; `List.range' 3 3` is Python `range(3, 6)`. -/
def check_connect_four_win (board : List (List Int)) (player_num : Int) : Bool :=
  ((List.range 6).any fun r => (List.range 4).any fun c =>
      (List.range 4).all fun i => cell board r (c + i) == player_num) ||
  ((List.range 3).any fun r => (List.range 7).any fun c =>
      (List.range 4).all fun i => cell board (r + i) c == player_num) ||
  ((List.range 3).any fun r => (List.range 4).any fun c =>
      (List.range 4).all fun i => cell board (r + i) (c + i) == player_num) ||
  ((List.range' 3 3).any fun r => (List.range 4).any fun c =>
      (List.range 4).all fun i => cell board (r - i) (c + i) == player_num)

/-- Models `check_connect_four_draw(board)` (src/Main.py:559-561):
`all(cell != 0 for cell in board[0])`. -/
def check_connect_four_draw (board : List (List Int)) : Bool :=
  (board.getD 0 []).all fun x => x != 0

/-- The claim-side property: the board contains four consecutive cells of
value `p` horizontally, vertically, or along either diagonal (window
positions as admitted by the 6 x 7 grid). -/
def HasFourInARow (board : List (List Int)) (p : Int) : Prop :=
  (∃ r < 6, ∃ c < 4, ∀ i < 4, cell board r (c + i) = p) ∨
  (∃ r < 3, ∃ c < 7, ∀ i < 4, cell board (r + i) c = p) ∨
  (∃ r < 3, ∃ c < 4, ∀ i < 4, cell board (r + i) (c + i) = p) ∨
  (∃ r < 6, 3 ≤ r ∧ ∃ c < 4, ∀ i < 4, cell board (r - i) (c + i) = p)

theorem mem_range_three_three {r : Nat} : r ∈ List.range' 3 3 ↔ 3 ≤ r ∧ r < 6 := by
  simp [List.range']
  omega

/-- The win scan is sound and complete for the four-in-a-row property. -/
theorem check_connect_four_win_iff (board : List (List Int)) (p : Int) :
    check_connect_four_win board p = true ↔ HasFourInARow board p := by
  simp only [check_connect_four_win, HasFourInARow, Bool.or_eq_true,
    List.any_eq_true, List.all_eq_true, List.mem_range, beq_iff_eq,
    mem_range_three_three]
  constructor
  · rintro (((⟨r, hr, c, hc, h4⟩ | ⟨r, hr, c, hc, h4⟩) | ⟨r, hr, c, hc, h4⟩) |
      ⟨r, ⟨hr3, hr6⟩, c, hc, h4⟩)
    · exact Or.inl ⟨r, hr, c, hc, h4⟩
    · exact Or.inr (Or.inl ⟨r, hr, c, hc, h4⟩)
    · exact Or.inr (Or.inr (Or.inl ⟨r, hr, c, hc, h4⟩))
    · exact Or.inr (Or.inr (Or.inr ⟨r, hr6, hr3, c, hc, h4⟩))
  · rintro (⟨r, hr, c, hc, h4⟩ | ⟨r, hr, c, hc, h4⟩ | ⟨r, hr, c, hc, h4⟩ |
      ⟨r, hr6, hr3, c, hc, h4⟩)
    · exact Or.inl (Or.inl (Or.inl ⟨r, hr, c, hc, h4⟩))
    · exact Or.inl (Or.inl (Or.inr ⟨r, hr, c, hc, h4⟩))
    · exact Or.inl (Or.inr ⟨r, hr, c, hc, h4⟩)
    · exact Or.inr ⟨r, ⟨hr3, hr6⟩, c, hc, h4⟩

theorem list_all_ne_zero (row : List Int)
    (h : ∀ c < row.length, row.getD c 0 ≠ 0) :
    (row.all fun x => x != 0) = true := by
  induction row with
  | nil => rfl
  | cons a t ih =>
    rw [List.all_cons, Bool.and_eq_true]
    constructor
    · have := h 0 (by simp)
      simpa using this
    · exact ih fun c hc => by
        have := h (c + 1) (by simpa)
        simpa [List.getD] using this

/-- Claim C6: on a 6 x 7 board, any four consecutive equal non-empty cells
along a row, column, or either diagonal make `check_connect_four_win`
return true for that piece value; a board whose top row is completely full
but which contains no four-in-a-row makes `check_connect_four_draw` return
true and `check_connect_four_win` return false for both piece values. -/
theorem connect_four_win_draw_detection (board : List (List Int))
    (hrows : board.length = 6) (hcols : ∀ row ∈ board, row.length = 7) :
    (∀ p : Int, p ≠ 0 → HasFourInARow board p →
      check_connect_four_win board p = true) ∧
    ((∀ c < 7, cell board 0 c ≠ 0) → ¬ HasFourInARow board 1 →
      ¬ HasFourInARow board 2 →
      check_connect_four_draw board = true ∧
      check_connect_four_win board 1 = false ∧
      check_connect_four_win board 2 = false) := by
  constructor
  · intro p _ hfour
    exact (check_connect_four_win_iff board p).mpr hfour
  · intro hfull h1 h2
    refine ⟨?_, ?_, ?_⟩
    · cases board with
      | nil => simp at hrows
      | cons row0 rest =>
        have hlen : row0.length = 7 := hcols row0 (by simp)
        have : ∀ c < row0.length, row0.getD c 0 ≠ 0 := by
          intro c hc
          have := hfull c (by omega)
          simpa [cell, List.getD] using this
        simpa [check_connect_four_draw, List.getD] using list_all_ne_zero row0 this
    · rw [← Bool.not_eq_true]
      intro hw
      exact h1 ((check_connect_four_win_iff board 1).mp hw)
    · rw [← Bool.not_eq_true]
      intro hw
      exact h2 ((check_connect_four_win_iff board 2).mp hw)

/-- The board of end-to-end scenario 2: a vertical four-in-a-row for the
yellow piece (2) in column 3, rows 2-5, and a full, alternating top row. -/
def boardC6 : List (List Int) :=
  [[1, 2, 1, 2, 1, 2, 1],
   [0, 0, 0, 1, 0, 0, 0],
   [0, 0, 0, 2, 0, 0, 0],
   [0, 0, 0, 2, 0, 0, 0],
   [0, 0, 0, 2, 0, 0, 0],
   [1, 1, 0, 2, 0, 0, 0]]

/-- A full-top-row board with no four-in-a-row anywhere. -/
def boardC6draw : List (List Int) :=
  [[1, 2, 1, 2, 1, 2, 1],
   [0, 0, 0, 0, 0, 0, 0],
   [0, 0, 0, 0, 0, 0, 0],
   [0, 0, 0, 0, 0, 0, 0],
   [0, 0, 0, 0, 0, 0, 0],
   [0, 0, 0, 0, 0, 0, 0]]

/-- Witness for C6: the vertical yellow four on `boardC6` is detected, and
the full-top-row board with no four-in-a-row is a draw and not a win. -/
theorem connect_four_win_draw_detection_witness :
    check_connect_four_win boardC6 2 = true ∧
    (check_connect_four_draw boardC6draw = true ∧
      check_connect_four_win boardC6draw 1 = false ∧
      check_connect_four_win boardC6draw 2 = false) :=
  ⟨(connect_four_win_draw_detection boardC6 (by decide)
      (by intro row hr; fin_cases hr <;> decide)).1 2 (by decide) (by
        refine Or.inr (Or.inl ⟨2, by omega, 3, by omega, ?_⟩)
        decide),
   (connect_four_win_draw_detection boardC6draw (by decide)
      (by intro row hr; fin_cases hr <;> decide)).2
     (by decide)
     (fun h => by
       have := (check_connect_four_win_iff boardC6draw 1).mpr h
       simp at this
       exact absurd this (by decide))
     (fun h => by
       have := (check_connect_four_win_iff boardC6draw 2).mpr h
       simp at this
       exact absurd this (by decide))⟩

/-- The drop scan of `connect_four_move_handler` (src/Main.py:637-641):
`for r in range(5, -1, -1)`, the first row from the bottom whose cell in
the column is empty. -/
def c4_find_row (board : List (List Int)) (col : Nat) : Option Nat :=
  [5, 4, 3, 2, 1, 0].find? fun r => cell board r col == 0

/-- The continuation of a Connect Four move after the piece was placed
(src/Main.py:649-692): win check, then draw check, then turn switch.  On a
win the source calls `handle_game_over`, which reloads the stored session
(the handler has not saved yet), so the saved record keeps the pre-move
board; on a draw or a turn switch the mutated board is saved. -/
def c4_after_move (names : Int → String) (pts : PointsData) (g : Game)
    (user_id : Int) (player_num : Int) (board2 : List (List Int)) : StepResult :=
  if check_connect_four_win board2 player_num then
    let loser_id := if user_id = g.challenger_id then g.opponent_id else g.challenger_id
    let res := handle_game_over names pts g user_id loser_id
    ⟨res.points, res.game, Effect.editMessage "Connect Four - Game Over!" :: res.effects⟩
  else if check_connect_four_draw board2 then
    ⟨pts, { g with board := board2, status := "complete" },
      [Effect.editMessage "Connect Four - Draw!"]⟩
  else
    let next_turn := if user_id = g.challenger_id then g.opponent_id else g.challenger_id
    ⟨pts, { g with board := board2, turn := next_turn },
      [Effect.editMessage "Connect Four"]⟩

/-- Models `connect_four_move_handler` (src/Main.py:610-692) from the point
where the session was loaded: inactive sessions and wrong-turn users are
rejected without mutation; a full column is rejected with an alert and no
save; otherwise the mover's piece (1 for the challenger, 2 otherwise) is
placed at the row found by the drop scan. -/
def connect_four_move_step (names : Int → String) (pts : PointsData) (g : Game)
    (user_id : Int) (col : Nat) : StepResult :=
  if g.status ≠ "active" then
    ⟨pts, g, [Effect.editMessage "This game is no longer active."]⟩
  else if g.turn ≠ user_id then
    ⟨pts, g, [Effect.alert "It is not your turn!"]⟩
  else
    let player_num : Int := if user_id = g.challenger_id then 1 else 2
    match c4_find_row g.board col with
    | none => ⟨pts, g, [Effect.alert "This column is full!"]⟩
    | some r => c4_after_move names pts g user_id player_num (setCell g.board r col player_num)

theorem c4_find_row_eq (board : List (List Int)) (col : Nat) :
    c4_find_row board col =
      if cell board 5 col = 0 then some 5
      else if cell board 4 col = 0 then some 4
      else if cell board 3 col = 0 then some 3
      else if cell board 2 col = 0 then some 2
      else if cell board 1 col = 0 then some 1
      else if cell board 0 col = 0 then some 0
      else none := by
  simp only [c4_find_row, List.find?]
  cases h5 : cell board 5 col == 0 <;>
    cases h4 : cell board 4 col == 0 <;>
      cases h3 : cell board 3 col == 0 <;>
        cases h2 : cell board 2 col == 0 <;>
          cases h1 : cell board 1 col == 0 <;>
            cases h0 : cell board 0 col == 0
  all_goals simp_all

/-- Claim C7: with the session active and the mover on turn, a move into a
column with at least one empty cell places the mover's piece in the lowest
empty row (the largest row index whose cell is 0); a move into a full
column leaves the whole session — board and turn included — unmodified. -/
theorem connect_four_move_placement (names : Int → String) (pts : PointsData)
    (g : Game) (user_id : Int) (col : Nat)
    (hstatus : g.status = "active") (hturn : g.turn = user_id) :
    ((∀ r < 6, cell g.board r col ≠ 0) →
      connect_four_move_step names pts g user_id col =
        ⟨pts, g, [Effect.alert "This column is full!"]⟩) ∧
    ((∃ r < 6, cell g.board r col = 0) →
      ∃ r, c4_find_row g.board col = some r ∧ r < 6 ∧ cell g.board r col = 0 ∧
        (∀ r2 < 6, cell g.board r2 col = 0 → r2 ≤ r) ∧
        connect_four_move_step names pts g user_id col =
          c4_after_move names pts g user_id
            (if user_id = g.challenger_id then 1 else 2)
            (setCell g.board r col (if user_id = g.challenger_id then 1 else 2))) := by
  have hs : ¬ g.status ≠ "active" := by simp [hstatus]
  have ht : ¬ g.turn ≠ user_id := by simp [hturn]
  constructor
  · intro hfull
    have hfind : c4_find_row g.board col = none := by
      have e5 := hfull 5 (by omega)
      have e4 := hfull 4 (by omega)
      have e3 := hfull 3 (by omega)
      have e2 := hfull 2 (by omega)
      have e1 := hfull 1 (by omega)
      have e0 := hfull 0 (by omega)
      simp [c4_find_row_eq, e5, e4, e3, e2, e1, e0]
    simp [connect_four_move_step, hs, ht, hfind]
  · intro hsome
    have hr : ∃ r, c4_find_row g.board col = some r ∧ r < 6 ∧
        cell g.board r col = 0 ∧ ∀ r2 < 6, cell g.board r2 col = 0 → r2 ≤ r := by
      by_cases e5 : cell g.board 5 col = 0
      · exact ⟨5, by simp [c4_find_row_eq, e5], by omega, e5,
          fun r2 h2 _ => by omega⟩
      · by_cases e4 : cell g.board 4 col = 0
        · refine ⟨4, by simp [c4_find_row_eq, e5, e4], by omega, e4,
            fun r2 h2 hz => ?_⟩
          by_contra hgt
          interval_cases r2
          simp_all
        · by_cases e3 : cell g.board 3 col = 0
          · refine ⟨3, by simp [c4_find_row_eq, e5, e4, e3], by omega, e3,
              fun r2 h2 hz => ?_⟩
            by_contra hgt
            interval_cases r2 <;> simp_all
          · by_cases e2 : cell g.board 2 col = 0
            · refine ⟨2, by simp [c4_find_row_eq, e5, e4, e3, e2], by omega,
                e2, fun r2 h2 hz => ?_⟩
              by_contra hgt
              interval_cases r2 <;> simp_all
            · by_cases e1 : cell g.board 1 col = 0
              · refine ⟨1, by simp [c4_find_row_eq, e5, e4, e3, e2, e1],
                  by omega, e1, fun r2 h2 hz => ?_⟩
                by_contra hgt
                interval_cases r2 <;> simp_all
              · by_cases e0 : cell g.board 0 col = 0
                · refine ⟨0, by simp [c4_find_row_eq, e5, e4, e3, e2, e1, e0],
                    by omega, e0, fun r2 h2 hz => ?_⟩
                  by_contra hgt
                  interval_cases r2 <;> simp_all
                · exfalso
                  obtain ⟨r, hr6, hz⟩ := hsome
                  interval_cases r <;> simp_all
    obtain ⟨r, hfind, hr6, hz, hmax⟩ := hr
    exact ⟨r, hfind, hr6, hz, hmax, by simp [connect_four_move_step, hs, ht, hfind]⟩

/-- An active Connect Four session between challenger 1 and opponent 2 with
one red piece at the bottom of column 0; it is the challenger's turn. -/
def gameC7 : Game :=
  { group_id := 10, challenger_id := 1, opponent_id := 2,
    game_type := "game_connect_four",
    challenger_stake := some (Stake.points 5),
    opponent_stake := some (Stake.points 5),
    status := "active", turn := 1,
    board := [[0, 0, 0, 0, 0, 0, 0],
              [0, 0, 0, 0, 0, 0, 0],
              [0, 0, 0, 0, 0, 0, 0],
              [0, 0, 0, 0, 0, 0, 0],
              [0, 0, 0, 0, 0, 0, 0],
              [1, 0, 0, 0, 0, 0, 0]] }

/-- Witness for C7: in `gameC7` a drop into column 0 lands on row 4 (the
lowest empty row above the existing piece). -/
theorem connect_four_move_placement_witness :
    c4_find_row gameC7.board 0 = some 4 ∧
    cell (connect_four_move_step namesX ptsC1 gameC7 1 0).game.board 4 0 = 1 := by
  have h := (connect_four_move_placement namesX ptsC1 gameC7 1 0 rfl rfl).2
    ⟨4, by omega, by decide⟩
  obtain ⟨r, hfind, _, _, _, hstep⟩ := h
  have hr4 : r = 4 := by
    have : c4_find_row gameC7.board 0 = some 4 := by decide
    rw [this] at hfind
    exact (Option.some_inj.mp hfind).symm
  subst hr4
  refine ⟨hfind, ?_⟩
  rw [hstep]
  decide

/-- Models `check_bs_ship_sunk(board, ship_coords)` (src/Main.py:746-748):
`all(board[r][c] == 3 for r, c in ship_coords)`. -/
def check_bs_ship_sunk (board : List (List Int)) (ship_coords : List (Nat × Nat)) :
    Bool :=
  ship_coords.all fun p => cell board p.1 p.2 == 3

/-- Models `bs_attack_handler` (src/Main.py:793-871) from the point where
the session was loaded.  Cell codes: 0 water, 1 ship, 2 miss, 3 hit.
A cell already marked 2 or 3 is rejected before anything is written.  The
fleet-elimination check runs on the board after marking; on a win the
source calls `handle_game_over`, which reloads the stored session (the
handler has not saved yet), so the saved record keeps the pre-attack
boards; otherwise the marked board and the switched turn are saved.  The
turn prompt of `bs_send_turn_message` (a board rendering) is abbreviated
to its recipient. -/
def bs_defender (g : Game) (user_id : Int) : Int :=
  if toString user_id = toString g.challenger_id then g.opponent_id
  else g.challenger_id

/-- The defender's board after the attack is marked (src/Main.py:822-825):
water (0) becomes miss (2), ship (1) becomes hit (3), anything else is
left as it came. -/
def bs_marked_board (board : List (List Int)) (r c : Nat) : List (List Int) :=
  if cell board r c = 0 then setCell board r c 2
  else if cell board r c = 1 then setCell board r c 3
  else board

def bs_attack_step (names : Int → String) (pts : PointsData) (g : Game)
    (user_id : Int) (r c : Nat) : StepResult :=
  if g.status ≠ "active" then
    ⟨pts, g, [Effect.editMessage "This game is no longer active."]⟩
  else if toString g.turn ≠ toString user_id then
    ⟨pts, g, [Effect.alert "It is not your turn!"]⟩
  else
    let opponent_id : Int := bs_defender g user_id
    let opponent_board := dictGet g.boards (toString opponent_id) []
    let target_val := cell opponent_board r c
    if target_val = 2 ∨ target_val = 3 then
      ⟨pts, g, [Effect.alert "You have already fired at this location."]⟩
    else
      let board2 := bs_marked_board opponent_board r c
      let result_text :=
        if target_val = 0 then "It is a MISS!"
        else if target_val = 1 then
          match (dictGet g.ships (toString opponent_id) []).find?
              (fun s => s.2.contains (r, c) && check_bs_ship_sunk board2 s.2) with
          | some s => "It is a HIT!" ++ " You sunk their " ++ s.1 ++ "!"
          | none => "It is a HIT!"
        else ""
      let all_sunk := (dictGet g.ships (toString opponent_id) []).all
        fun s => check_bs_ship_sunk board2 s.2
      if all_sunk then
        let res := handle_game_over names pts g user_id opponent_id
        ⟨res.points, res.game,
          Effect.sendMessage g.group_id "The game is over!" :: res.effects ++
            [Effect.editMessage "You are victorious! See the group for the result."]⟩
      else
        ⟨pts,
         { g with boards := alSet g.boards (toString opponent_id) board2,
                  turn := opponent_id },
         [Effect.editMessage ("You fired. " ++ result_text),
          Effect.sendMessage opponent_id result_text,
          Effect.sendMessage g.group_id "It is now the other turn.",
          Effect.sendMessage opponent_id "turn prompt"]⟩

/-- Claim C9: an attack on a cell already marked hit (3) or miss (2) is
rejected with an alert only: the points store, the boards, the turn — the
whole session record — are unchanged and nothing is saved. -/
theorem bs_attack_already_fired_rejected (names : Int → String)
    (pts : PointsData) (g : Game) (user_id : Int) (r c : Nat)
    (hstatus : g.status = "active")
    (hturn : toString g.turn = toString user_id)
    (htv : cell (dictGet g.boards (toString (bs_defender g user_id)) []) r c = 2 ∨
      cell (dictGet g.boards (toString (bs_defender g user_id)) []) r c = 3) :
    bs_attack_step names pts g user_id r c =
      ⟨pts, g, [Effect.alert "You have already fired at this location."]⟩ := by
  have hs : ¬ g.status ≠ "active" := by simp [hstatus]
  have ht : ¬ toString g.turn ≠ toString user_id := by simp [hturn]
  simp only [bs_attack_step, hs, ht, if_false]
  rw [if_pos htv]

/-- An active battleship session: challenger 1 to move, opponent 2 defends
a board whose only ship is a destroyer on (0,0)-(0,1) with (0,1) already
hit, and cell (5,5) already missed. -/
def gameC9 : Game :=
  { group_id := 10, challenger_id := 1, opponent_id := 2,
    game_type := "game_battleship",
    challenger_stake := some (Stake.points 5),
    opponent_stake := some (Stake.media "photo" "file7"),
    status := "active", turn := 1,
    boards := [("1", emptyBsBoard),
               ("2", setCell (setCell (setCell emptyBsBoard 0 0 1) 0 1 3) 5 5 2)],
    ships := [("1", []), ("2", [("Destroyer", [(0, 0), (0, 1)])])] }

/-- Witness for C9: firing again at the already-hit (0,1) of `gameC9`
changes nothing. -/
theorem bs_attack_already_fired_rejected_witness :
    bs_attack_step namesX ptsC1 gameC9 1 0 1 =
      ⟨ptsC1, gameC9, [Effect.alert "You have already fired at this location."]⟩ :=
  bs_attack_already_fired_rejected namesX ptsC1 gameC9 1 0 1 rfl rfl (by decide)

/-- Claim C8: a ship is reported sunk exactly when every one of its
recorded coordinates is marked hit on the board; and, on a valid attack,
settlement is invoked with the attacker as winner and the defender as
loser exactly when every ship of the defender's fleet is sunk on the
marked board — otherwise no points move, the marked board is saved and the
turn passes to the defender. -/
theorem bs_attack_fleet_elimination (names : Int → String) (pts : PointsData)
    (g : Game) (user_id : Int) (r c : Nat)
    (hstatus : g.status = "active")
    (hturn : toString g.turn = toString user_id)
    (htv : cell (dictGet g.boards (toString (bs_defender g user_id)) []) r c ≠ 2 ∧
      cell (dictGet g.boards (toString (bs_defender g user_id)) []) r c ≠ 3) :
    (∀ (b : List (List Int)) (coords : List (Nat × Nat)),
      check_bs_ship_sunk b coords = true ↔ ∀ p ∈ coords, cell b p.1 p.2 = 3) ∧
    (((dictGet g.ships (toString (bs_defender g user_id)) []).all fun s =>
        check_bs_ship_sunk
          (bs_marked_board (dictGet g.boards (toString (bs_defender g user_id)) []) r c)
          s.2) = true →
      (bs_attack_step names pts g user_id r c).points =
        (handle_game_over names pts g user_id (bs_defender g user_id)).points ∧
      (bs_attack_step names pts g user_id r c).game =
        (handle_game_over names pts g user_id (bs_defender g user_id)).game) ∧
    (((dictGet g.ships (toString (bs_defender g user_id)) []).all fun s =>
        check_bs_ship_sunk
          (bs_marked_board (dictGet g.boards (toString (bs_defender g user_id)) []) r c)
          s.2) = false →
      (bs_attack_step names pts g user_id r c).points = pts ∧
      (bs_attack_step names pts g user_id r c).game =
        { g with
            boards := alSet g.boards (toString (bs_defender g user_id))
              (bs_marked_board
                (dictGet g.boards (toString (bs_defender g user_id)) []) r c),
            turn := bs_defender g user_id }) := by
  have hs : ¬ g.status ≠ "active" := by simp [hstatus]
  have ht : ¬ toString g.turn ≠ toString user_id := by simp [hturn]
  have hno : ¬ (cell (dictGet g.boards (toString (bs_defender g user_id)) []) r c = 2 ∨
      cell (dictGet g.boards (toString (bs_defender g user_id)) []) r c = 3) := by
    rcases htv with ⟨h2, h3⟩
    rintro (h | h)
    · exact h2 h
    · exact h3 h
  refine ⟨?_, fun hall => ?_, fun hall => ?_⟩
  · intro b coords
    simp [check_bs_ship_sunk, List.all_eq_true]
  · simp only [bs_attack_step, hs, ht, if_false]
    rw [if_neg hno]
    simp only [hall, if_true]
    exact ⟨by trivial, by trivial⟩
  · simp only [bs_attack_step, hs, ht, if_false]
    rw [if_neg hno]
    simp only [hall]
    exact ⟨by trivial, by trivial⟩

/-- An active battleship session one hit away from elimination: the
defender 2 has a single destroyer on (0,0)-(0,1) with (0,1) already hit,
and the attacker 1 fires at (0,0). -/
def gameC8 : Game :=
  { group_id := 10, challenger_id := 1, opponent_id := 2,
    game_type := "game_battleship",
    challenger_stake := some (Stake.points 5),
    opponent_stake := some (Stake.points 5),
    status := "active", turn := 1,
    boards := [("1", emptyBsBoard),
               ("2", setCell (setCell emptyBsBoard 0 0 1) 0 1 3)],
    ships := [("1", []), ("2", [("Destroyer", [(0, 0), (0, 1)])])] }

/-- Witness for C8: hitting (0,0) of `gameC8` sinks the last ship, so the
resulting record is the settlement output — status complete and the 5-point
stake moved from defender 2 to attacker 1. -/
theorem bs_attack_fleet_elimination_witness :
    (bs_attack_step namesX ptsC1 gameC8 1 0 0).game.status = "complete" ∧
    get_user_points (bs_attack_step namesX ptsC1 gameC8 1 0 0).points 10 1 = 30 ∧
    get_user_points (bs_attack_step namesX ptsC1 gameC8 1 0 0).points 10 2 = 10 := by
  have h := (bs_attack_fleet_elimination namesX ptsC1 gameC8 1 0 0 rfl rfl
    (by decide)).2.1 (by decide)
  rcases h with ⟨hp, hg⟩
  refine ⟨?_, ?_, ?_⟩
  · rw [hg]; decide
  · rw [hp]; decide
  · rw [hp]; decide

/-- The round threshold `rounds_to_play // 2 + 1` (src/Main.py:2808).
Lean's `Int` division agrees with Python `//` on the positive values
{3, 5, 9} this field takes. -/
def rounds_to_win_total (g : Game) : Int :=
  g.rounds_to_play / 2 + 1

/-- The settlement block inlined in `dice_roll_handler`
(src/Main.py:2821-2858) — the acknowledged duplicate of the Settlement
Engine: same stake selection and same pair of `add_user_points` calls as
`handle_game_over`, with loser-centric message texts, then the status is
set to complete.  A missing stake would raise KeyError in the source
before anything is transferred or saved; that is modelled as leaving the
state unchanged (unreachable for active sessions, whose stakes are set). -/
def dice_settle (names : Int → String) (pts : PointsData) (g : Game)
    (winner_id loser_id : Int) : StepResult :=
  match select_loser_stake g loser_id with
  | none => ⟨pts, g, []⟩
  | some stake =>
    let loser_name := names loser_id
    let winner_name := names winner_id
    match stake with
    | Stake.points v =>
      let pts1 := add_user_points pts g.group_id winner_id v
      let pts2 := add_user_points pts1 g.group_id loser_id (-v)
      let message :=
        if strContains loser_name "fag" then
          "The " ++ loser_name ++ " is a loser! They lost " ++ toString v ++
            " points to " ++ winner_name ++ "."
        else
          pyCapitalize loser_name ++ " is a loser! They lost " ++ toString v ++
            " points to " ++ winner_name ++ "."
      ⟨pts2, { g with status := "complete" }, [Effect.sendMessage g.group_id message]⟩
    | Stake.media mtype fileId =>
      let caption :=
        if strContains loser_name "fag" then
          "The " ++ loser_name ++ " is a loser! This was their stake."
        else
          pyCapitalize loser_name ++ " is a loser! This was their stake."
      let effs :=
        if mtype = "photo" then [Effect.sendPhoto g.group_id fileId caption]
        else if mtype = "video" then [Effect.sendVideo g.group_id fileId caption]
        else if mtype = "voice" then [Effect.sendVoice g.group_id fileId caption]
        else []
      ⟨pts, { g with status := "complete" }, effs⟩

/-- The decisive-round tail of `dice_roll_handler` (src/Main.py:2788-2867):
the round winner's score is incremented, the round result announced, and
either the match ends (threshold reached, settlement runs with the
higher-scored participant as winner) or the round counter advances and the
pending roll is cleared. -/
def dice_round_won (names : Int → String) (pts : PointsData) (g : Game)
    (winner_id : Int) : StepResult :=
  let g1 :=
    if winner_id = g.challenger_id then
      { g with challenger_score := g.challenger_score + 1 }
    else
      { g with opponent_score := g.opponent_score + 1 }
  let winner_name := names winner_id
  let win_message :=
    if strContains winner_name "fag" then
      "The " ++ winner_name ++ " wins round " ++ toString g1.current_round ++
        "! Score: " ++ toString g1.challenger_score ++ " - " ++
        toString g1.opponent_score
    else
      pyCapitalize winner_name ++ " wins round " ++ toString g1.current_round ++
        "! Score: " ++ toString g1.challenger_score ++ " - " ++
        toString g1.opponent_score
  if g1.challenger_score ≥ rounds_to_win_total g1 ∨
      g1.opponent_score ≥ rounds_to_win_total g1 then
    let game_winner_id :=
      if g1.challenger_score > g1.opponent_score then g1.challenger_id
      else g1.opponent_id
    let game_loser_id :=
      if g1.challenger_score > g1.opponent_score then g1.opponent_id
      else g1.challenger_id
    let res := dice_settle names pts g1 game_winner_id game_loser_id
    ⟨res.points, res.game, Effect.sendMessage g.group_id win_message :: res.effects⟩
  else
    ⟨pts, { g1 with current_round := g1.current_round + 1, last_roll := none },
     [Effect.sendMessage g.group_id win_message,
      Effect.sendMessage g.group_id
        ("Round " ++ toString (g1.current_round + 1) ++ "! It is anyone to roll.")]⟩

/-- Models `dice_roll_handler` (src/Main.py:2735-2867) from the point where
the active dice session of the roller was found: a first roll is recorded
as `last_roll`; a second roll by the same participant is refused; a higher
second roll decides the round for its roller, a lower one for the recorded
roller; equal rolls clear `last_roll` and change nothing else. -/
def dice_step (names : Int → String) (pts : PointsData) (g : Game)
    (user_id roll_value : Int) : StepResult :=
  match g.last_roll with
  | none =>
    ⟨pts, { g with last_roll := some ⟨user_id, roll_value⟩ },
     [Effect.reply ("You rolled a " ++ toString roll_value ++
       ". Waiting for the other player to roll.")]⟩
  | some lastr =>
    if lastr.user_id = user_id then
      ⟨pts, g, [Effect.reply "It is not your turn to roll."]⟩
    else if lastr.value > roll_value then
      dice_round_won names pts g lastr.user_id
    else if roll_value > lastr.value then
      dice_round_won names pts g user_id
    else
      ⟨pts, { g with last_roll := none },
       [Effect.reply ("You both rolled a " ++ toString lastr.value ++
         ". It is a tie! Roll again.")]⟩

theorem dice_round_won_by_challenger (names : Int → String) (pts : PointsData)
    (g : Game)
    (hcs : g.challenger_score < rounds_to_win_total g)
    (hos : g.opponent_score < rounds_to_win_total g) :
    g.challenger_score + 1 ≤ rounds_to_win_total g ∧
    (g.challenger_score + 1 = rounds_to_win_total g →
      (dice_round_won names pts g g.challenger_id).points =
        (dice_settle names pts { g with challenger_score := g.challenger_score + 1 }
          g.challenger_id g.opponent_id).points ∧
      (dice_round_won names pts g g.challenger_id).game =
        (dice_settle names pts { g with challenger_score := g.challenger_score + 1 }
          g.challenger_id g.opponent_id).game) ∧
    (g.challenger_score + 1 < rounds_to_win_total g →
      (dice_round_won names pts g g.challenger_id).points = pts ∧
      (dice_round_won names pts g g.challenger_id).game =
        { g with challenger_score := g.challenger_score + 1,
                 current_round := g.current_round + 1, last_roll := none }) := by
  refine ⟨by omega, fun hover => ?_, fun hcont => ?_⟩
  · refine ⟨?_, ?_⟩ <;>
    · simp only [dice_round_won]
      split_ifs <;>
        first
          | rfl
          | (exfalso; simp only [rounds_to_win_total] at *; omega)
  · refine ⟨?_, ?_⟩ <;>
    · simp only [dice_round_won]
      split_ifs <;>
        first
          | rfl
          | (exfalso; simp only [rounds_to_win_total] at *; omega)

theorem dice_round_won_by_opponent (names : Int → String) (pts : PointsData)
    (g : Game)
    (hco : g.challenger_id ≠ g.opponent_id)
    (hcs : g.challenger_score < rounds_to_win_total g)
    (hos : g.opponent_score < rounds_to_win_total g) :
    g.opponent_score + 1 ≤ rounds_to_win_total g ∧
    (g.opponent_score + 1 = rounds_to_win_total g →
      (dice_round_won names pts g g.opponent_id).points =
        (dice_settle names pts { g with opponent_score := g.opponent_score + 1 }
          g.opponent_id g.challenger_id).points ∧
      (dice_round_won names pts g g.opponent_id).game =
        (dice_settle names pts { g with opponent_score := g.opponent_score + 1 }
          g.opponent_id g.challenger_id).game) ∧
    (g.opponent_score + 1 < rounds_to_win_total g →
      (dice_round_won names pts g g.opponent_id).points = pts ∧
      (dice_round_won names pts g g.opponent_id).game =
        { g with opponent_score := g.opponent_score + 1,
                 current_round := g.current_round + 1, last_roll := none }) := by
  refine ⟨by omega, fun hover => ?_, fun hcont => ?_⟩
  · refine ⟨?_, ?_⟩ <;>
    · simp only [dice_round_won]
      split_ifs <;>
        first
          | rfl
          | (exfalso; simp only [rounds_to_win_total] at *; omega)
  · refine ⟨?_, ?_⟩ <;>
    · simp only [dice_round_won]
      split_ifs <;>
        first
          | rfl
          | (exfalso; simp only [rounds_to_win_total] at *; omega)

/-- Claim C5: in a dice match of best-of-N (N in 3, 5, 9), once both rolls
of a round are in: equal rolls leave the points store, both scores and the
round counter unchanged and only clear the pending roll (the round is
replayed); unequal rolls increment the round winner's score, which can
reach at most N // 2 + 1, and the match ends exactly when that winner's
new score equals N // 2 + 1 — the settlement runs with that participant
as winner and the other as loser — while below the threshold nothing is
settled, the round counter advances and the pending roll is cleared. -/
theorem dice_best_of_n_round_and_match_end (names : Int → String)
    (pts : PointsData) (g : Game) (u v p1 v1 : Int)
    (_hN : g.rounds_to_play = 3 ∨ g.rounds_to_play = 5 ∨ g.rounds_to_play = 9)
    (hlr : g.last_roll = some ⟨p1, v1⟩)
    (hne : p1 ≠ u)
    (hu : u = g.challenger_id ∨ u = g.opponent_id)
    (hp : p1 = g.challenger_id ∨ p1 = g.opponent_id)
    (hcs : g.challenger_score < rounds_to_win_total g)
    (hos : g.opponent_score < rounds_to_win_total g) :
    (v1 = v →
      (dice_step names pts g u v).points = pts ∧
      (dice_step names pts g u v).game = { g with last_roll := none }) ∧
    (v1 ≠ v →
      ((if v1 > v then p1 else u) = g.challenger_id →
        g.challenger_score + 1 ≤ rounds_to_win_total g ∧
        (g.challenger_score + 1 = rounds_to_win_total g →
          (dice_step names pts g u v).points =
            (dice_settle names pts
              { g with challenger_score := g.challenger_score + 1 }
              g.challenger_id g.opponent_id).points ∧
          (dice_step names pts g u v).game =
            (dice_settle names pts
              { g with challenger_score := g.challenger_score + 1 }
              g.challenger_id g.opponent_id).game) ∧
        (g.challenger_score + 1 < rounds_to_win_total g →
          (dice_step names pts g u v).points = pts ∧
          (dice_step names pts g u v).game =
            { g with challenger_score := g.challenger_score + 1,
                     current_round := g.current_round + 1, last_roll := none })) ∧
      ((if v1 > v then p1 else u) = g.opponent_id →
        g.opponent_score + 1 ≤ rounds_to_win_total g ∧
        (g.opponent_score + 1 = rounds_to_win_total g →
          (dice_step names pts g u v).points =
            (dice_settle names pts
              { g with opponent_score := g.opponent_score + 1 }
              g.opponent_id g.challenger_id).points ∧
          (dice_step names pts g u v).game =
            (dice_settle names pts
              { g with opponent_score := g.opponent_score + 1 }
              g.opponent_id g.challenger_id).game) ∧
        (g.opponent_score + 1 < rounds_to_win_total g →
          (dice_step names pts g u v).points = pts ∧
          (dice_step names pts g u v).game =
            { g with opponent_score := g.opponent_score + 1,
                     current_round := g.current_round + 1, last_roll := none }))) := by
  have hco : g.challenger_id ≠ g.opponent_id := by
    rcases hu with hu1 | hu1 <;> rcases hp with hp1 | hp1 <;>
      subst hu1 <;> subst hp1
    · exact absurd rfl hne
    · exact Ne.symm hne
    · exact hne
    · exact absurd rfl hne
  constructor
  · intro hveq
    subst hveq
    refine ⟨?_, ?_⟩ <;>
    · simp only [dice_step, hlr]
      split_ifs <;> first | rfl | (exfalso; omega)
  · intro hvne
    have hstep : dice_step names pts g u v =
        dice_round_won names pts g (if v1 > v then p1 else u) := by
      simp only [dice_step, hlr]
      split_ifs <;> first | rfl | (exfalso; omega)
    rw [hstep]
    refine ⟨fun hwc => ?_, fun hwo => ?_⟩
    · rw [hwc]
      exact dice_round_won_by_challenger names pts g hcs hos
    · rw [hwo]
      exact dice_round_won_by_opponent names pts g hco hcs hos

/-- A best-of-5 dice session at 2 - 2 in round 5: challenger 1 has rolled
a 4 and awaits opponent 2; both staked 50 points; all balances are 0. -/
def gameC5 : Game :=
  { group_id := 1, challenger_id := 1, opponent_id := 2,
    game_type := "game_dice",
    challenger_stake := some (Stake.points 50),
    opponent_stake := some (Stake.points 50),
    status := "active", rounds_to_play := 5,
    challenger_score := 2, opponent_score := 2, current_round := 5,
    last_roll := some ⟨1, 4⟩ }

/-- Witness for C5: opponent 2 answers the pending 4 with a 6, reaching
score 3 = 5 // 2 + 1, and the match settles — 50 points flow from the
losing challenger 1 to the winner 2 and the session completes. -/
theorem dice_best_of_n_round_and_match_end_witness :
    (dice_step namesX [] gameC5 2 6).game.status = "complete" ∧
    get_user_points (dice_step namesX [] gameC5 2 6).points 1 2 = 50 ∧
    get_user_points (dice_step namesX [] gameC5 2 6).points 1 1 = -50 := by
  have h := (dice_best_of_n_round_and_match_end namesX [] gameC5 2 6 1 4
    (by decide) rfl (by decide) (by decide) (by decide) (by decide) (by decide)).2
    (by decide)
  have h2 := (h.2 (by decide)).2.1 (by decide)
  rcases h2 with ⟨hp2, hg2⟩
  refine ⟨?_, ?_, ?_⟩
  · rw [hg2]; decide
  · rw [hp2]; decide
  · rw [hp2]; decide

end Beano
